import Mathlib

/-!
Formal model of the token entities of the uniswap-v2-sdk-scroll repository.

The definitions below are a shallow embedding of src/src/entities/token.ts:
the Token value type with its equals and sortsBefore operations, the
polymorphic currencyEquals dispatch, and the WETH constant table.  Fallible
operations (invariant failures, address validation) are embedded as
Except-valued functions.  The Currency base class, the ChainId enumeration and
the validateAndParseAddress utility are imported by token.ts from modules that
are not part of the excerpt; they are modelled from the specification and
marked as such in their doc comments.

JavaScript strings are modelled as Lean String; the address and metadata
strings handled by the library are ASCII, where JS toLowerCase and the JS
code-unit-wise string comparison coincide with the character-wise maps and
lexicographic comparison used here.
-/

namespace UniswapScroll

/-- Modelled from the spec: the Chain Registry, an opaque enumeration of the
supported chain identifiers (the ChainId enum lives in the constants module,
which is not part of the excerpt).  The constructor names are exactly the
ChainId members used by token.ts; the spec describes the type as an opaque
key with no behavior, so the underlying numeric values are irrelevant. -/
inductive ChainId where
  | MAINNET | ROPSTEN | RINKEBY | GOERLI | KOVAN | BSC | CHAPEL | MATIC | MUMBAI
  | EVMOSTEST | EVMOS | CELO | CELOALFAJORES | ZKSYNCTEST | ZKSYNC
  | SCROLLGOERLITEST | SCROLLSEPOLIATEST | SCROLL
deriving DecidableEq, Repr

/-- Failure conditions of the library.  invariantFailure carries the message
passed to tiny-invariant in token.ts (DECIMALS, SYMBOL, NAME, CHAIN_IDS,
ADDRESSES); the spec groups the first three as InconsistentTokenMetadata and
calls the last two CrossChainComparison and IdenticalAddress.  invalidAddress
and invalidDecimals are the construction-time validation failures the spec
names InvalidAddress and InvalidDecimals. -/
inductive SdkError where
  | invalidAddress (addr : String)
  | invalidDecimals
  | invariantFailure (msg : String)
deriving DecidableEq, Repr

/-- JS String.prototype.toLowerCase, restricted to ASCII data (addresses are
ASCII hex strings, on which full Unicode lowercasing and Char.toLower agree). -/
def lowerStr (s : String) : String := String.mk (s.data.map Char.toLower)

/-- Lexicographic comparison of character lists, mirroring the JS relational
comparison of strings (code-unit-wise lexicographic order; on the ASCII
strings handled here code units and code points coincide). -/
def charListLt : List Char → List Char → Bool
  | [], [] => false
  | [], _ :: _ => true
  | _ :: _, [] => false
  | a :: as, b :: bs => if a < b then true else if b < a then false else charListLt as bs

/-- JS string less-than, as used by address.toLowerCase() < other in token.ts. -/
def strLtJs (a b : String) : Bool := charListLt a.data b.data

/-- Hexadecimal digit test (either case). -/
def isHexDigit (c : Char) : Bool :=
  (decide ('0' ≤ c) && decide (c ≤ '9')) ||
  (decide ('a' ≤ c) && decide (c ≤ 'f')) ||
  (decide ('A' ≤ c) && decide (c ≤ 'F'))

/-- Modelled from the spec: syntactic validity of a chain address for the
Address Validator of spec section 4.1 (the validateAndParseAddress utility
lives in the utils module, which is not part of the excerpt): a 42-character
string consisting of the 0x tag followed by 40 hexadecimal digits.  Checksum
enforcement is deliberately not assumed, following the open question in spec
section 9. -/
def isValidAddressFormat (s : String) : Bool :=
  decide (s.data.length = 42) &&
  (match s.data with | '0' :: 'x' :: _ => true | _ => false) &&
  (s.data.drop 2).all isHexDigit

/-- Modelled from the spec: the Address Validator (validateAndParseAddress in
the utils module, not part of the excerpt).  Per spec section 4.1 it returns a
normalized canonical representation of a syntactically valid address and
fails with InvalidAddress otherwise; the canonical form chosen here is the
lowercase form, which is a function of the case-insensitive content of the
address, as any canonical form must be. -/
def validateAndParseAddress (s : String) : Except SdkError String :=
  if isValidAddressFormat s then .ok (lowerStr s) else .error (.invalidAddress s)

/-- The Token entity of token.ts: the Currency data (decimals, optional
symbol and name, inherited from the Currency base class described in spec
section 3) plus the identity fields chainId and address.  symbol and name are
Option String, mirroring the optional constructor parameters. -/
structure Token where
  chainId : ChainId
  address : String
  decimals : Nat
  symbol : Option String
  name : Option String
deriving DecidableEq, Repr

/-- The Token constructor: runs the Currency constructor on decimals (the
Currency class is not part of the excerpt; its decimals range check, failing
with InvalidDecimals outside 0–255, is modelled from spec section 4.2), then
stores the chainId and the validated, normalized address. -/
def mkToken (chainId : ChainId) (address : String) (decimals : Nat)
    (symbol : Option String) (name : Option String) : Except SdkError Token :=
  if decimals ≤ 255 then
    (validateAndParseAddress address).map fun a => Token.mk chainId a decimals symbol name
  else .error .invalidDecimals

/-- JS truthiness of an optional string, as used by the guards
this.symbol && other.symbol in token.ts: undefined and the empty string are
falsy, every other string is truthy. -/
def strTruthy : Option String → Bool
  | none => false
  | some s => !(decide (s = ""))

/-- Token.equals from token.ts.  The JS reference-equality short circuit
(this === other) is omitted: under value semantics a token is equivalent to
itself and passes every metadata check, so the result is unchanged.  The
equivalent flag is chainId and (exact) address equality on the stored,
normalized addresses; when it holds, mismatching decimals, or mismatching
truthy symbols, or mismatching truthy names, raise the corresponding
invariant failure; otherwise the flag is returned. -/
def Token.equals (t other : Token) : Except SdkError Bool :=
  let equivalent : Bool := decide (t.chainId = other.chainId) && decide (t.address = other.address)
  if equivalent then
    if !(decide (t.decimals = other.decimals)) then .error (.invariantFailure ("DECIMALS"))
    else if strTruthy t.symbol && strTruthy other.symbol && !(decide (t.symbol = other.symbol)) then
      .error (.invariantFailure ("SYMBOL"))
    else if strTruthy t.name && strTruthy other.name && !(decide (t.name = other.name)) then
      .error (.invariantFailure ("NAME"))
    else .ok equivalent
  else .ok equivalent

/-- Token.sortsBefore from token.ts: requires equal chainIds (CHAIN_IDS
invariant) and distinct stored addresses (ADDRESSES invariant), then compares
the lowercased addresses lexicographically. -/
def Token.sortsBefore (t other : Token) : Except SdkError Bool :=
  if !(decide (t.chainId = other.chainId)) then .error (.invariantFailure ("CHAIN_IDS"))
  else if decide (t.address = other.address) then .error (.invariantFailure ("ADDRESSES"))
  else .ok (strLtJs (lowerStr t.address) (lowerStr other.address))

/-- Modelled from the spec: a non-Token Currency instance (the Currency class
of spec sections 3 and 4.2, not part of the excerpt), holding decimals and
optional symbol and name.  refId models JS object identity: each constructed
instance is a distinct heap object, and the === comparison performed by
currencyEquals on non-Token currencies is identity of the instance, i.e.
equality of the whole record including refId. -/
structure NativeCurrency where
  refId : Nat
  decimals : Nat
  symbol : Option String
  name : Option String
deriving DecidableEq, Repr

/-- A Currency-capable value: either a non-Token (native) currency instance
or a Token, mirroring the instanceof Token discrimination in token.ts. -/
inductive Currency where
  | native (c : NativeCurrency)
  | token (t : Token)
deriving DecidableEq, Repr

/-- currencyEquals from token.ts: both Tokens delegate to Token.equals (and
so propagate its invariant failures); a Token never equals a non-Token; two
non-Tokens are compared with ===, i.e. reference equality of the instances. -/
def currencyEquals : Currency → Currency → Except SdkError Bool
  | .token a, .token b => a.equals b
  | .token _, _ => .ok false
  | _, .token _ => .ok false
  | .native a, .native b => .ok (decide (a = b))

deriving instance DecidableEq for Except

/-- Spec name for the metadata invariant failures of Token.equals: the
DECIMALS, SYMBOL and NAME invariant messages together form the
InconsistentTokenMetadata fatal condition of spec section 7. -/
def IsInconsistentTokenMetadata (e : SdkError) : Prop :=
  e = .invariantFailure ("DECIMALS") ∨ e = .invariantFailure ("SYMBOL") ∨
  e = .invariantFailure ("NAME")

/-- Metadata disagreement between two tokens, exactly as Token.equals tests
it: differing decimals, or both symbols provided (truthy) and differing, or
both names provided (truthy) and differing. -/
def MetadataMismatch (t u : Token) : Prop :=
  t.decimals ≠ u.decimals ∨
  (strTruthy t.symbol = true ∧ strTruthy u.symbol = true ∧ t.symbol ≠ u.symbol) ∨
  (strTruthy t.name = true ∧ strTruthy u.name = true ∧ t.name ≠ u.name)

/-- The WETH constant table of token.ts: for each ChainId key, the Token
built by the constructor from the literal address, 18 decimals, and the
wrapped-native-asset symbol and name recorded in the source. -/
def WETH : ChainId → Except SdkError Token
  | .MAINNET => mkToken .MAINNET ("0xC02aaA39b223FE8D0A0e5C4F27eAD9083C756Cc2") 18 (some ("WETH")) (some ("Wrapped Ether"))
  | .ROPSTEN => mkToken .ROPSTEN ("0xc778417E063141139Fce010982780140Aa0cD5Ab") 18 (some ("WETH")) (some ("Wrapped Ether"))
  | .RINKEBY => mkToken .RINKEBY ("0xc778417E063141139Fce010982780140Aa0cD5Ab") 18 (some ("WETH")) (some ("Wrapped Ether"))
  | .GOERLI => mkToken .GOERLI ("0xB4FBF271143F4FBf7B91A5ded31805e42b2208d6") 18 (some ("WETH")) (some ("Wrapped Ether"))
  | .KOVAN => mkToken .KOVAN ("0xd0A1E359811322d97991E03f863a0C30C2cF029C") 18 (some ("WETH")) (some ("Wrapped Ether"))
  | .BSC => mkToken .BSC ("0xbb4CdB9CBd36B01bD1cBaEBF2De08d9173bc095c") 18 (some ("WBNB")) (some ("Wrapped BNB"))
  | .CHAPEL => mkToken .CHAPEL ("0xaE8E19eFB41e7b96815649A6a60785e1fbA84C1e") 18 (some ("WBNB")) (some ("Wrapped BNB"))
  | .MATIC => mkToken .MATIC ("0x0d500B1d8E8eF31E21C99d1Db9A6444d3ADf1270") 18 (some ("WMATIC")) (some ("Wrapped Matic"))
  | .MUMBAI => mkToken .MUMBAI ("0x9c3C9283D3e44854697Cd22D3Faa240Cfb032889") 18 (some ("WMATIC")) (some ("Wrapped Matic"))
  | .EVMOSTEST => mkToken .EVMOSTEST ("0x42CeDD53a09dCd6cd9482d9a6B75C8fdB2bA5132") 18 (some ("WTEVMOS")) (some ("Wrapped TEVMOS"))
  | .EVMOS => mkToken .EVMOS ("0xd4949664cd82660aae99bedc034a0dea8a0bd517") 18 (some ("WEVMOS")) (some ("Wrapped EVMOS"))
  | .CELO => mkToken .CELO ("0xe9eCec2cfA95D7df0644B6c8BaDD3BC1c3Cf39BA") 18 (some ("WETH")) (some ("Wrapped Ether"))
  | .CELOALFAJORES => mkToken .CELOALFAJORES ("0xC8F2E555951a1eDb610b5bEBa530F4130E5d94F9") 18 (some ("WETH")) (some ("Wrapped Ether"))
  | .ZKSYNCTEST => mkToken .ZKSYNCTEST ("0xa1EA0B2354F5A344110af2b6AD68e75545009a03") 18 (some ("WETH")) (some ("Wrapped Ether"))
  | .ZKSYNC => mkToken .ZKSYNC ("0xa1EA0B2354F5A344110af2b6AD68e75545009a03") 18 (some ("WETH")) (some ("Wrapped Ether"))
  | .SCROLLGOERLITEST => mkToken .SCROLLGOERLITEST ("0xa1EA0B2354F5A344110af2b6AD68e75545009a03") 18 (some ("WETH")) (some ("Wrapped Ether"))
  | .SCROLLSEPOLIATEST => mkToken .SCROLLSEPOLIATEST ("0x5300000000000000000000000000000000000004") 18 (some ("WETH")) (some ("Wrapped Ether"))
  | .SCROLL => mkToken .SCROLL ("0x5300000000000000000000000000000000000004") 18 (some ("WETH")) (some ("Wrapped Ether"))

/-- Concrete token used by witnesses: mainnet WETH with normalized address. -/
def tokC1a : Token :=
  ⟨.MAINNET, "0xc02aaa39b223fe8d0a0e5c4f27ead9083c756cc2", 18, some ("WETH"), some ("Wrapped Ether")⟩

/-- Concrete token used by witnesses: Scroll WETH with normalized address. -/
def tokC2a : Token :=
  ⟨.SCROLL, "0x5300000000000000000000000000000000000004", 18, some ("WETH"), none⟩

/-- Concrete token used by witnesses: same identity as tokC2a, different decimals. -/
def tokC2b : Token :=
  ⟨.SCROLL, "0x5300000000000000000000000000000000000004", 6, some ("WETH"), none⟩

/-- Concrete token used by witnesses: same address as tokC2a on another chain. -/
def tokC2c : Token :=
  ⟨.MAINNET, "0x5300000000000000000000000000000000000004", 18, some ("WETH"), none⟩

/-- Concrete token used by witnesses: Scroll-chain token whose address sorts
after tokC2a's. -/
def tokC3b : Token :=
  ⟨.SCROLL, "0xc02aaa39b223fe8d0a0e5c4f27ead9083c756cc2", 18, some ("WETH"), none⟩

/-- Concrete token used by witnesses: empty-string symbol and name. -/
def tokC9a : Token :=
  ⟨.SCROLL, "0x5300000000000000000000000000000000000004", 18, some (""), some ("")⟩

/-- Concrete token used by witnesses: same identity as tokC9a with non-empty
symbol and name. -/
def tokC9b : Token :=
  ⟨.SCROLL, "0x5300000000000000000000000000000000000004", 18, some ("WETH"), some ("Wrapped Ether")⟩

/-- Concrete native-currency instance used for C6 (allocation id 0). -/
def etherA : NativeCurrency := ⟨0, 18, some ("ETH"), some ("Ether")⟩

/-- Concrete native-currency instance used for C6: a distinct instance
(allocation id 1) with field values equal to etherA's. -/
def etherB : NativeCurrency := ⟨1, 18, some ("ETH"), some ("Ether")⟩

/-- Conversion of Char.ofNat back to Nat on valid code points. -/
theorem toNat_ofNat_of_valid {n : Nat} (h : n.isValidChar) : (Char.ofNat n).toNat = n := by
  rw [Char.ofNat, dif_pos h]
  rfl

/-- Char.toLower is idempotent. -/
theorem toLower_toLower (c : Char) : c.toLower.toLower = c.toLower := by
  unfold Char.toLower
  by_cases h : 65 ≤ c.toNat ∧ c.toNat ≤ 90
  · rw [if_pos h]
    have hv : (c.toNat + 32).isValidChar := Or.inl (by omega)
    have ht : (Char.ofNat (c.toNat + 32)).toNat = c.toNat + 32 := toNat_ofNat_of_valid hv
    rw [if_neg (by omega)]
  · rw [if_neg h, if_neg h]

/-- Lowercasing is idempotent, so normalized addresses are fixed points. -/
theorem lowerStr_idem (s : String) : lowerStr (lowerStr s) = lowerStr s := by
  simp [lowerStr, List.map_map, Function.comp_def, toLower_toLower]

/-- charListLt is irreflexive. -/
theorem charListLt_irrefl : ∀ l : List Char, charListLt l l = false
  | [] => rfl
  | a :: as => by simp [charListLt, charListLt_irrefl as]

/-- charListLt is asymmetric. -/
theorem charListLt_asymm : ∀ a b : List Char, charListLt a b = true → charListLt b a = false
  | [], [], h => by simp [charListLt] at h
  | [], _ :: _, _ => rfl
  | _ :: _, [], h => by simp [charListLt] at h
  | a :: as, b :: bs, h => by
    by_cases hab : a < b
    · simp [charListLt, hab, lt_asymm hab]
    · by_cases hba : b < a
      · simp [charListLt, hab, hba] at h
      · simp [charListLt, hab, hba] at h ⊢
        exact charListLt_asymm as bs h

/-- charListLt is total on distinct lists. -/
theorem charListLt_total_of_ne : ∀ a b : List Char, a ≠ b →
    charListLt a b = true ∨ charListLt b a = true
  | [], [], h => absurd rfl h
  | [], _ :: _, _ => Or.inl rfl
  | _ :: _, [], _ => Or.inr rfl
  | a :: as, b :: bs, h => by
    rcases lt_trichotomy a b with hab | hab | hab
    · exact Or.inl (by simp [charListLt, hab])
    · subst hab
      have hne : as ≠ bs := fun hh => h (by rw [hh])
      rcases charListLt_total_of_ne as bs hne with ih | ih
      · exact Or.inl (by simp [charListLt, lt_irrefl, ih])
      · exact Or.inr (by simp [charListLt, lt_irrefl, ih])
    · exact Or.inr (by simp [charListLt, hab, lt_asymm hab])

/-- Inversion of a successful construction: the address was valid, the
decimals were in range, and the stored fields are the normalized inputs. -/
theorem mkToken_ok_inv {c a d sy nm t} (h : mkToken c a d sy nm = Except.ok t) :
    isValidAddressFormat a = true ∧ d ≤ 255 ∧ t = Token.mk c (lowerStr a) d sy nm := by
  unfold mkToken validateAndParseAddress at h
  split at h
  · split at h
    · simp only [Except.map] at h
      cases h
      exact ⟨by assumption, by assumption, rfl⟩
    · simp only [Except.map] at h
      cases h
  · cases h

/-- The stored address of a constructed token is lowercase-normalized. -/
theorem mkToken_address_normalized {c a d sy nm t} (h : mkToken c a d sy nm = Except.ok t) :
    lowerStr t.address = t.address := by
  have h3 := (mkToken_ok_inv h).2.2
  rw [h3]
  exact lowerStr_idem a

/-- Normal form of Token.equals with the let-bound flag expanded into both
branches. -/
theorem equals_def (t u : Token) : t.equals u =
    (if decide (t.chainId = u.chainId) && decide (t.address = u.address) then
       if !(decide (t.decimals = u.decimals)) then Except.error (.invariantFailure ("DECIMALS"))
       else if strTruthy t.symbol && strTruthy u.symbol && !(decide (t.symbol = u.symbol)) then
         Except.error (.invariantFailure ("SYMBOL"))
       else if strTruthy t.name && strTruthy u.name && !(decide (t.name = u.name)) then
         Except.error (.invariantFailure ("NAME"))
       else Except.ok true
     else Except.ok false) := by
  unfold Token.equals
  by_cases hc : (decide (t.chainId = u.chainId) && decide (t.address = u.address)) = true
  · simp [hc]
  · simp only [Bool.not_eq_true] at hc
    simp [hc]

/-- Whenever equals returns a Boolean, that Boolean is the identity flag. -/
theorem equals_ok_val {t u : Token} {b : Bool} (h : t.equals u = Except.ok b) :
    b = (decide (t.chainId = u.chainId) && decide (t.address = u.address)) := by
  rw [equals_def] at h
  by_cases hc : (decide (t.chainId = u.chainId) && decide (t.address = u.address)) = true
  · rw [if_pos hc] at h
    rw [hc]
    split at h
    · cases h
    · split at h
      · cases h
      · split at h
        · cases h
        · cases h
          rfl
  · simp only [Bool.not_eq_true] at hc
    rw [hc] at h
    rw [if_neg (by simp)] at h
    rw [hc]
    cases h
    rfl

/-- On tokens with distinct identities, equals returns false and never raises. -/
theorem equals_not_identical {t u : Token} (h : ¬(t.chainId = u.chainId ∧ t.address = u.address)) :
    t.equals u = Except.ok false := by
  have hb : (decide (t.chainId = u.chainId) && decide (t.address = u.address)) = false := by
    simpa [Decidable.not_and_iff_or_not] using h
  unfold Token.equals
  simp [hb]

/-- Reflection of the three-part Boolean guard used by the SYMBOL and NAME
invariant checks. -/
theorem boolCond3 {p : Prop} [Decidable p] {a b : Bool} :
    (a && b && !(decide p)) = true ↔ (a = true ∧ b = true ∧ ¬p) := by
  simp [Bool.and_assoc]

/-- equals raises an InconsistentTokenMetadata error exactly on identical
identities with mismatching metadata. -/
theorem equals_error_iff (t u : Token) :
    (∃ e, t.equals u = Except.error e ∧ IsInconsistentTokenMetadata e) ↔
    (t.chainId = u.chainId ∧ t.address = u.address ∧ MetadataMismatch t u) := by
  rw [equals_def]
  by_cases hc : t.chainId = u.chainId
  · by_cases ha : t.address = u.address
    · have hcond : (decide (t.chainId = u.chainId) && decide (t.address = u.address)) = true := by
        simp [hc, ha]
      rw [if_pos hcond]
      by_cases hd : t.decimals = u.decimals
      · rw [if_neg (by simp [hd])]
        by_cases hs : (strTruthy t.symbol && strTruthy u.symbol && !(decide (t.symbol = u.symbol))) = true
        · rw [if_pos hs]
          exact iff_of_true ⟨_, rfl, Or.inr (Or.inl rfl)⟩ ⟨hc, ha, Or.inr (Or.inl (boolCond3.mp hs))⟩
        · rw [if_neg hs]
          by_cases hn : (strTruthy t.name && strTruthy u.name && !(decide (t.name = u.name))) = true
          · rw [if_pos hn]
            exact iff_of_true ⟨_, rfl, Or.inr (Or.inr rfl)⟩ ⟨hc, ha, Or.inr (Or.inr (boolCond3.mp hn))⟩
          · rw [if_neg hn]
            refine iff_of_false (by rintro ⟨e, he, -⟩; cases he) ?_
            rintro ⟨-, -, hm⟩
            rcases hm with hm | hm | hm
            · exact hm hd
            · exact hs (boolCond3.mpr hm)
            · exact hn (boolCond3.mpr hm)
      · rw [if_pos (by simp [hd])]
        exact iff_of_true ⟨_, rfl, Or.inl rfl⟩ ⟨hc, ha, Or.inl hd⟩
    · refine iff_of_false ?_ (by rintro ⟨-, ha', -⟩; exact ha ha')
      rintro ⟨e, he, -⟩
      rw [if_neg (by simp [ha])] at he
      cases he
  · refine iff_of_false ?_ (by rintro ⟨hc', -, -⟩; exact hc hc')
    rintro ⟨e, he, -⟩
    rw [if_neg (by simp [hc])] at he
    cases he

/-- When both guards pass, sortsBefore compares the lowercased addresses. -/
theorem sortsBefore_run {t u : Token} (hc : t.chainId = u.chainId) (ha : t.address ≠ u.address) :
    t.sortsBefore u = Except.ok (strLtJs (lowerStr t.address) (lowerStr u.address)) := by
  unfold Token.sortsBefore
  rw [if_neg (by simp [hc]), if_neg (by simp [ha])]

/-- Cross-chain comparison raises the CHAIN_IDS invariant before anything else. -/
theorem sortsBefore_cross_chain {t u : Token} (h : t.chainId ≠ u.chainId) :
    t.sortsBefore u = Except.error (.invariantFailure ("CHAIN_IDS")) := by
  unfold Token.sortsBefore
  rw [if_pos (by simp [h])]

/-- Same chain and same address raises the ADDRESSES invariant. -/
theorem sortsBefore_same_address {t u : Token} (hc : t.chainId = u.chainId)
    (ha : t.address = u.address) :
    t.sortsBefore u = Except.error (.invariantFailure ("ADDRESSES")) := by
  unfold Token.sortsBefore
  rw [if_neg (by simp [hc]), if_pos (by simp [ha])]

/-- Distinct strings have distinct character lists. -/
theorem data_ne_of_ne {a b : String} (h : a ≠ b) : a.data ≠ b.data :=
  fun hd => h (congrArg String.mk hd)

/-- C1: for constructed Tokens, equals returns true exactly when the chainIds
agree and the stored addresses agree case-insensitively; in particular two
Tokens built from the same chainId, the same metadata, and addresses equal up
to letter casing compare equal. -/
theorem token_equals_true_iff_case_insensitive_identity :
    (∀ (c₁ c₂ : ChainId) (a₁ a₂ : String) (d₁ d₂ : Nat) (s₁ s₂ n₁ n₂ : Option String)
       (t u : Token) (b : Bool),
       mkToken c₁ a₁ d₁ s₁ n₁ = Except.ok t → mkToken c₂ a₂ d₂ s₂ n₂ = Except.ok u →
       t.equals u = Except.ok b →
       (b = true ↔ (t.chainId = u.chainId ∧ lowerStr t.address = lowerStr u.address)))
    ∧ (∀ (c : ChainId) (a₁ a₂ : String) (d : Nat) (s n : Option String) (t u : Token),
       mkToken c a₁ d s n = Except.ok t → mkToken c a₂ d s n = Except.ok u →
       lowerStr a₁ = lowerStr a₂ → t.equals u = Except.ok true) := by
  constructor
  · intro c₁ c₂ a₁ a₂ d₁ d₂ s₁ s₂ n₁ n₂ t u b ht hu hb
    have hv := equals_ok_val hb
    constructor
    · intro htrue
      rw [htrue] at hv
      have hv' := hv.symm
      simp only [Bool.and_eq_true, decide_eq_true_eq] at hv'
      exact ⟨hv'.1, by rw [hv'.2]⟩
    · rintro ⟨hcc, hla⟩
      have hna : t.address = u.address := by
        have h1 := mkToken_address_normalized ht
        have h2 := mkToken_address_normalized hu
        rw [← h1, ← h2, hla]
      rw [hv]
      simp [hcc, hna]
  · intro c a₁ a₂ d s n t u ht hu hla
    obtain ⟨-, -, ht'⟩ := mkToken_ok_inv ht
    obtain ⟨-, -, hu'⟩ := mkToken_ok_inv hu
    subst ht' hu'
    rw [equals_def]
    simp [hla]

/-- Witness for C1: two constructions of mainnet WETH whose input addresses
differ only in casing yield tokens that compare equal. -/
theorem token_equals_true_iff_case_insensitive_identity_witness :
    tokC1a.equals tokC1a = Except.ok true :=
  token_equals_true_iff_case_insensitive_identity.2 ChainId.MAINNET
    ("0xC02aaA39b223FE8D0A0e5C4F27eAD9083C756Cc2")
    ("0xc02aaa39b223fe8d0a0e5c4f27ead9083c756cc2")
    18 (some ("WETH")) (some ("Wrapped Ether")) tokC1a tokC1a (by decide) (by decide) (by decide)

/-- C2: equals raises an InconsistentTokenMetadata failure exactly when the
two tokens have the same identity (chainId and address) and their decimals
differ, or both provide a (truthy) symbol and the symbols differ, or both
provide a (truthy) name and the names differ; on distinct identities it
returns false without raising, regardless of metadata. -/
theorem token_equals_raises_iff_inconsistent_metadata :
    ∀ t u : Token,
      ((∃ e, t.equals u = Except.error e ∧ IsInconsistentTokenMetadata e) ↔
        (t.chainId = u.chainId ∧ t.address = u.address ∧ MetadataMismatch t u))
      ∧ (¬(t.chainId = u.chainId ∧ t.address = u.address) → t.equals u = Except.ok false) :=
  fun t u => ⟨equals_error_iff t u, equals_not_identical⟩

/-- Witness for C2: same identity with different decimals raises an
InconsistentTokenMetadata failure, and a different chainId yields false. -/
theorem token_equals_raises_iff_inconsistent_metadata_witness :
    (∃ e, tokC2a.equals tokC2b = Except.error e ∧ IsInconsistentTokenMetadata e) ∧
    tokC2a.equals tokC2c = Except.ok false :=
  ⟨(token_equals_raises_iff_inconsistent_metadata tokC2a tokC2b).1.mpr
      ⟨rfl, rfl, Or.inl (by decide)⟩,
    (token_equals_raises_iff_inconsistent_metadata tokC2a tokC2c).2 (by decide)⟩

/-- C3: for constructed Tokens on the same chain with different stored
addresses, exactly one of A.sortsBefore B and B.sortsBefore A returns true
and the other returns false. -/
theorem token_sortsBefore_strict_total_order :
    ∀ (c₁ c₂ : ChainId) (a₁ a₂ : String) (d₁ d₂ : Nat) (s₁ s₂ n₁ n₂ : Option String)
      (A B : Token),
      mkToken c₁ a₁ d₁ s₁ n₁ = Except.ok A → mkToken c₂ a₂ d₂ s₂ n₂ = Except.ok B →
      A.chainId = B.chainId → A.address ≠ B.address →
      (A.sortsBefore B = Except.ok true ∧ B.sortsBefore A = Except.ok false) ∨
      (A.sortsBefore B = Except.ok false ∧ B.sortsBefore A = Except.ok true) := by
  intro c₁ c₂ a₁ a₂ d₁ d₂ s₁ s₂ n₁ n₂ A B hA hB hc ha
  rw [sortsBefore_run hc ha, sortsBefore_run hc.symm (Ne.symm ha)]
  rw [mkToken_address_normalized hA, mkToken_address_normalized hB]
  have hne : A.address.data ≠ B.address.data := data_ne_of_ne ha
  rcases charListLt_total_of_ne A.address.data B.address.data hne with h | h
  · exact Or.inl ⟨by rw [strLtJs, h], by rw [strLtJs, charListLt_asymm _ _ h]⟩
  · exact Or.inr ⟨by rw [strLtJs, charListLt_asymm _ _ h], by rw [strLtJs, h]⟩

/-- Witness for C3: two constructed Scroll tokens with distinct addresses
are strictly ordered one way or the other. -/
theorem token_sortsBefore_strict_total_order_witness :
    (tokC2a.sortsBefore tokC3b = Except.ok true ∧ tokC3b.sortsBefore tokC2a = Except.ok false) ∨
    (tokC2a.sortsBefore tokC3b = Except.ok false ∧ tokC3b.sortsBefore tokC2a = Except.ok true) :=
  token_sortsBefore_strict_total_order ChainId.SCROLL ChainId.SCROLL
    ("0x5300000000000000000000000000000000000004")
    ("0xC02aaA39b223FE8D0A0e5C4F27eAD9083C756Cc2")
    18 18 (some ("WETH")) (some ("WETH")) none none
    tokC2a tokC3b (by decide) (by decide) (by decide) (by decide)

/-- C4: sortsBefore fails with the CHAIN_IDS invariant (CrossChainComparison)
whenever the chainIds differ, regardless of the addresses; with equal
chainIds and equal addresses it fails with the ADDRESSES invariant
(IdenticalAddress); in particular a token compared with itself fails with
the ADDRESSES invariant rather than returning false. -/
theorem token_sortsBefore_error_conditions :
    ∀ A B : Token,
      (A.chainId ≠ B.chainId → A.sortsBefore B = Except.error (.invariantFailure ("CHAIN_IDS"))) ∧
      (A.chainId = B.chainId → A.address = B.address →
        A.sortsBefore B = Except.error (.invariantFailure ("ADDRESSES"))) ∧
      A.sortsBefore A = Except.error (.invariantFailure ("ADDRESSES")) :=
  fun _ _ =>
    ⟨fun h => sortsBefore_cross_chain h,
     fun hc ha => sortsBefore_same_address hc ha,
     sortsBefore_same_address rfl rfl⟩

/-- Witness for C4: a cross-chain comparison (with equal addresses) raises
CHAIN_IDS, and a same-chain equal-address comparison raises ADDRESSES. -/
theorem token_sortsBefore_error_conditions_witness :
    tokC2a.sortsBefore tokC2c = Except.error (.invariantFailure ("CHAIN_IDS")) ∧
    tokC2a.sortsBefore tokC2b = Except.error (.invariantFailure ("ADDRESSES")) :=
  ⟨(token_sortsBefore_error_conditions tokC2a tokC2c).1 (by decide),
   (token_sortsBefore_error_conditions tokC2a tokC2b).2.1 (by decide) (by decide)⟩

/-- C5: currencyEquals returns false whenever exactly one argument is a
Token, regardless of shared field values, and on two Tokens it returns
exactly what Token.equals returns. -/
theorem currencyEquals_token_dispatch :
    (∀ (n : NativeCurrency) (t : Token),
      currencyEquals (Currency.native n) (Currency.token t) = Except.ok false ∧
      currencyEquals (Currency.token t) (Currency.native n) = Except.ok false) ∧
    (∀ a b : Token, currencyEquals (Currency.token a) (Currency.token b) = a.equals b) :=
  ⟨fun _ _ => ⟨rfl, rfl⟩, fun _ _ => rfl⟩

/-- Counterexample for C6: two distinct native-currency instances (different
allocation identities) with equal decimals, symbol and name, on which
currencyEquals returns false, not true as the claim states. -/
theorem currencyEquals_native_value_equality_cex :
    etherA.refId ≠ etherB.refId ∧
    etherA.decimals = etherB.decimals ∧ etherA.symbol = etherB.symbol ∧ etherA.name = etherB.name ∧
    currencyEquals (Currency.native etherA) (Currency.native etherB) = Except.ok false ∧
    currencyEquals (Currency.native etherA) (Currency.native etherB) ≠ Except.ok true := by
  refine ⟨by decide, rfl, rfl, rfl, by decide, ?_⟩
  intro h
  simp [currencyEquals, etherA, etherB] at h

/-- C6 (amended): currencyEquals on two non-Token Currency values returns
true exactly when they are the same instance (JS reference equality); two
distinct instances compare false even when all their field values agree. -/
theorem currencyEquals_native_same_instance_iff :
    ∀ a b : NativeCurrency,
      currencyEquals (Currency.native a) (Currency.native b) = Except.ok true ↔ a = b := by
  intro a b
  unfold currencyEquals
  constructor
  · intro h
    have h' : decide (a = b) = true := by
      injection h
    exact of_decide_eq_true h'
  · intro h
    subst h
    simp

/-- C7: two Tokens on different chains are never equal and equals never
raises on them, whatever their addresses and metadata. -/
theorem token_equals_cross_chain_false :
    ∀ t u : Token, t.chainId ≠ u.chainId → t.equals u = Except.ok false :=
  fun _ _ h => equals_not_identical (fun hh => h hh.1)

/-- Witness for C7: equal addresses and metadata on different chains still
compare false. -/
theorem token_equals_cross_chain_false_witness :
    tokC2a.equals tokC2c = Except.ok false :=
  token_equals_cross_chain_false tokC2a tokC2c (by decide)

/-- C8: Token construction fails with InvalidAddress on every malformed
address (wrong length, or a non-hexadecimal character in the 40-digit
payload), and succeeds on every syntactically valid address, storing the
normalized canonical (lowercase) form of the input. -/
theorem token_construction_validates_address :
    ∀ (c : ChainId) (s : String) (d : Nat) (sy nm : Option String), d ≤ 255 →
      ((s.data.length ≠ 42 ∨ ((s.data.drop 2).all isHexDigit) = false) →
         mkToken c s d sy nm = Except.error (SdkError.invalidAddress s)) ∧
      (isValidAddressFormat s = true →
         mkToken c s d sy nm = Except.ok (Token.mk c (lowerStr s) d sy nm)) := by
  intro c s d sy nm hd
  constructor
  · intro hbad
    have hval : isValidAddressFormat s = false := by
      unfold isValidAddressFormat
      rcases hbad with h | h
      · have h' : ¬s.length = 42 := h
        simp [h']
      · simp [h]
    unfold mkToken validateAndParseAddress
    rw [if_pos hd, if_neg (by simp [hval])]
    rfl
  · intro hval
    unfold mkToken validateAndParseAddress
    rw [if_pos hd, if_pos hval]
    rfl

/-- Witness for C8: the spec's concrete invalid address (trailing non-hex
digit) is rejected, and the mainnet WETH address is accepted and stored in
normalized form. -/
theorem token_construction_validates_address_witness :
    mkToken ChainId.MAINNET ("0x0000000000000000000000000000000000000g") 18 none none =
      Except.error (SdkError.invalidAddress ("0x0000000000000000000000000000000000000g")) ∧
    mkToken ChainId.MAINNET ("0xC02aaA39b223FE8D0A0e5C4F27eAD9083C756Cc2") 18 none none =
      Except.ok (Token.mk ChainId.MAINNET
        (lowerStr ("0xC02aaA39b223FE8D0A0e5C4F27eAD9083C756Cc2")) 18 none none) :=
  ⟨(token_construction_validates_address ChainId.MAINNET
      ("0x0000000000000000000000000000000000000g") 18 none none (by decide)).1 (by decide),
   (token_construction_validates_address ChainId.MAINNET
      ("0xC02aaA39b223FE8D0A0e5C4F27eAD9083C756Cc2") 18 none none (by decide)).2 (by decide)⟩

/-- C9: on two tokens with the same identity, an empty-string symbol on
either side disables the SYMBOL consistency check (the empty string is falsy,
i.e. counts as not provided), so equals can never raise the SYMBOL invariant;
the same holds for an empty-string name and the NAME invariant. -/
theorem token_equals_empty_string_skips_metadata_check :
    ∀ t u : Token, t.chainId = u.chainId → t.address = u.address →
      ((t.symbol = some ("") ∨ u.symbol = some ("")) →
          t.equals u ≠ Except.error (SdkError.invariantFailure ("SYMBOL"))) ∧
      ((t.name = some ("") ∨ u.name = some ("")) →
          t.equals u ≠ Except.error (SdkError.invariantFailure ("NAME"))) := by
  intro t u hc ha
  constructor
  · intro hsym
    have hfs : (strTruthy t.symbol && strTruthy u.symbol && !(decide (t.symbol = u.symbol))) = false := by
      rcases hsym with h | h <;> simp [h, strTruthy]
    rw [equals_def]
    split
    · split
      · simp
      · rw [if_neg (by simp [hfs])]
        split
        · simp
        · simp
    · simp
  · intro hnm
    have hfn : (strTruthy t.name && strTruthy u.name && !(decide (t.name = u.name))) = false := by
      rcases hnm with h | h <;> simp [h, strTruthy]
    rw [equals_def]
    split
    · split
      · simp
      · split
        · simp
        · rw [if_neg (by simp [hfn])]
          simp
    · simp

/-- Witness for C9: a token with empty-string symbol and name shares an
identity with one carrying different non-empty metadata, and equals raises
neither the SYMBOL nor the NAME invariant on the pair. -/
theorem token_equals_empty_string_skips_metadata_check_witness :
    tokC9a.equals tokC9b ≠ Except.error (SdkError.invariantFailure ("SYMBOL")) ∧
    tokC9a.equals tokC9b ≠ Except.error (SdkError.invariantFailure ("NAME")) :=
  ⟨(token_equals_empty_string_skips_metadata_check tokC9a tokC9b rfl rfl).1 (Or.inl rfl),
   (token_equals_empty_string_skips_metadata_check tokC9a tokC9b rfl rfl).2 (Or.inl rfl)⟩

/-- C10: every entry of the WETH table constructs successfully, carries the
chainId it is indexed under, and has 18 decimals. -/
theorem WETH_entries_well_formed :
    ∀ c : ChainId, ∃ t : Token, WETH c = Except.ok t ∧ t.chainId = c ∧ t.decimals = 18 := by
  intro c
  cases c <;> exact ⟨_, rfl, rfl, rfl⟩

end UniswapScroll
